import Mathlib

/-!
Shallow embedding of the clog header-only logging library
(`src/include/clog/log.hpp` and `src/include/clog/config.hpp`).

C strings are modelled as Lean `String` (NUL-free); `strcmp(a, b) == 0`
becomes string equality.  Fixed C arrays become lists of fixed length,
initialised as the zero-initialised C statics are (`{}`: empty tag,
inactive).  The logger's mutable statics become an explicit state record,
and each member function becomes a function on that state.  The compile
world is the default desktop configuration: no `CLOG_PLATFORM_*` macro
defined, `CLOG_ENABLE_TAG_FILTERING = 1`, `CLOG_MAX_TAG_FILTERS = 16`,
buffer size 512.
-/

namespace Clog

/-- `enum class Level` from log.hpp (OFF=0 .. TRACE=5). -/
inductive Level where
  | OFF
  | ERROR
  | WARN
  | INFO
  | DEBUG
  | TRACE
deriving DecidableEq

/-- Numeric value of a `Level`, as the C++ enumerator value used by
`level > currentLevel` comparisons. -/
def Level.toNat : Level → Nat
  | .OFF => 0
  | .ERROR => 1
  | .WARN => 2
  | .INFO => 3
  | .DEBUG => 4
  | .TRACE => 5

/-- `enum class Color` from log.hpp. -/
inductive Color where
  | DEFAULT
  | BLACK
  | RED
  | GREEN
  | YELLOW
  | BLUE
  | MAGENTA
  | CYAN
  | WHITE
  | BRIGHT_BLACK
  | BRIGHT_RED
  | BRIGHT_GREEN
  | BRIGHT_YELLOW
  | BRIGHT_BLUE
  | BRIGHT_MAGENTA
  | BRIGHT_CYAN
  | BRIGHT_WHITE
deriving DecidableEq

/-- `Logger::levelToString`: the `default:` arm of the C switch (reached by
`Level::OFF`) yields the sentinel `"?????"`. -/
def levelToString : Level → String
  | .ERROR => "ERROR"
  | .WARN => "WARN "
  | .INFO => "INFO "
  | .DEBUG => "DEBUG"
  | .TRACE => "TRACE"
  | .OFF => "?????"

/-- `Logger::levelToColor`. -/
def levelToColor : Level → String
  | .ERROR => "\x1b[91m"
  | .WARN => "\x1b[93m"
  | .INFO => "\x1b[92m"
  | .DEBUG => "\x1b[94m"
  | .TRACE => "\x1b[90m"
  | .OFF => "\x1b[0m"

/-- `Logger::colorToAnsi`. -/
def colorToAnsi : Color → String
  | .DEFAULT => ""
  | .BLACK => "\x1b[30m"
  | .RED => "\x1b[31m"
  | .GREEN => "\x1b[32m"
  | .YELLOW => "\x1b[33m"
  | .BLUE => "\x1b[34m"
  | .MAGENTA => "\x1b[35m"
  | .CYAN => "\x1b[36m"
  | .WHITE => "\x1b[37m"
  | .BRIGHT_BLACK => "\x1b[90m"
  | .BRIGHT_RED => "\x1b[91m"
  | .BRIGHT_GREEN => "\x1b[92m"
  | .BRIGHT_YELLOW => "\x1b[93m"
  | .BRIGHT_BLUE => "\x1b[94m"
  | .BRIGHT_MAGENTA => "\x1b[95m"
  | .BRIGHT_CYAN => "\x1b[96m"
  | .BRIGHT_WHITE => "\x1b[97m"

/-- `struct TagFilter { char tag[32]; bool active; }`. -/
structure TagFilter where
  tag : String
  active : Bool
deriving DecidableEq

/-- `enum class TagFilterMode`. -/
inductive TagFilterMode where
  | ALLOW_ALL
  | WHITELIST
  | BLACKLIST
deriving DecidableEq

/-- The tag-filtering statics of `Logger`: `filterMode` and the
`tagFilters[CLOG_MAX_TAG_FILTERS]` array. -/
structure FilterState where
  mode : TagFilterMode
  filters : List TagFilter
deriving DecidableEq

/-- `CLOG_MAX_TAG_FILTERS` (config.hpp default). -/
def MAX_TAG_FILTERS : Nat := 16

/-- Characters actually stored per tag filter entry:
`sizeof(TagFilter::tag) - 1 = 31` (`strncpy` copies at most 31 chars and
the last byte is forced to NUL). -/
def TAG_STORE_CAP : Nat := 31

/-- The `strncpy` truncation applied when a tag is stored into a
`TagFilter` slot. -/
def truncTag (t : String) : String := ⟨t.data.take TAG_STORE_CAP⟩

/-- `vsnprintf` into the 512-byte message buffer keeps at most 511
characters of the formatted message. -/
def truncMsg (m : String) : String := ⟨m.data.take 511⟩

/-- The scan `tagFilters[i].active && strcmp(tagFilters[i].tag, tag) == 0`
underlying `Logger::findTagFilter` — `true` iff some slot holds `t`
actively.  Note the comparison uses the caller's tag untruncated. -/
def containsTag : List TagFilter → String → Bool
  | [], _ => false
  | f :: rest, t => (f.active && decide (f.tag = t)) || containsTag rest t

/-- `tagFilters[index].active = false` at the first index returned by
`findTagFilter` (first active slot whose stored tag equals `t`). -/
def deactivateFirst : List TagFilter → String → List TagFilter
  | [], _ => []
  | f :: rest, t =>
    if f.active && decide (f.tag = t) then ⟨f.tag, false⟩ :: rest
    else f :: deactivateFirst rest t

/-- The "find empty slot" loop of `enableTag`/`disableTag`: store the
(already truncated) tag in the first inactive slot, mark it active; if no
slot is free the list is returned unchanged (silent drop). -/
def insertFirstEmpty : List TagFilter → String → List TagFilter
  | [], _ => []
  | f :: rest, stored =>
    if f.active then f :: insertFirstEmpty rest stored
    else ⟨stored, true⟩ :: rest

/-- The `tagFilters[i].active = false` loop of `Logger::clearTagFilters`
(tag bytes are left in place, only the flag is cleared). -/
def clearAll (fs : List TagFilter) : List TagFilter :=
  fs.map fun f => ⟨f.tag, false⟩

/-- Zero-initialised `tagFilters` array: 16 inactive slots with empty tag. -/
def initFilters : List TagFilter := List.replicate MAX_TAG_FILTERS ⟨"", false⟩

/-- Initial tag-filter state (`filterMode = ALLOW_ALL`, zeroed array). -/
def initFilterState : FilterState := ⟨.ALLOW_ALL, initFilters⟩

/-- `Logger::enableTag`: ALLOW_ALL switches the mode to WHITELIST first;
BLACKLIST removes the tag; WHITELIST adds it (no-op when present, silent
drop when the array is full). -/
def enableTag (s : FilterState) (t : String) : FilterState :=
  let mode := if s.mode = .ALLOW_ALL then .WHITELIST else s.mode
  if mode = .BLACKLIST then ⟨mode, deactivateFirst s.filters t⟩
  else if containsTag s.filters t then ⟨mode, s.filters⟩
  else ⟨mode, insertFirstEmpty s.filters (truncTag t)⟩

/-- `Logger::disableTag`: mirror image of `enableTag`. -/
def disableTag (s : FilterState) (t : String) : FilterState :=
  let mode := if s.mode = .ALLOW_ALL then .BLACKLIST else s.mode
  if mode = .WHITELIST then ⟨mode, deactivateFirst s.filters t⟩
  else if containsTag s.filters t then ⟨mode, s.filters⟩
  else ⟨mode, insertFirstEmpty s.filters (truncTag t)⟩

/-- `Logger::enableAllTags`. -/
def enableAllTags (s : FilterState) : FilterState :=
  ⟨.ALLOW_ALL, clearAll s.filters⟩

/-- `Logger::disableAllTags`. -/
def disableAllTags (s : FilterState) : FilterState :=
  ⟨.WHITELIST, clearAll s.filters⟩

/-- `Logger::clearTagFilters` (mode untouched). -/
def clearTagFilters (s : FilterState) : FilterState :=
  ⟨s.mode, clearAll s.filters⟩

/-- `Logger::checkTagFilter`. -/
def checkTagFilter (s : FilterState) (t : String) : Bool :=
  match s.mode with
  | .ALLOW_ALL => true
  | .WHITELIST => containsTag s.filters t
  | .BLACKLIST => !containsTag s.filters t

/-- `Logger::isTagEnabled`. -/
def isTagEnabled (s : FilterState) (t : String) : Bool :=
  checkTagFilter s t

/-- Number of active entries in the registry. -/
def activeCount (fs : List TagFilter) : Nat :=
  (fs.filter fun f => f.active).length

/-- `struct TagColor { char tag[32]; Color color; bool active; }`. -/
structure TagColor where
  tag : String
  color : Color
  active : Bool
deriving DecidableEq

/-- `struct LibraryColor`. -/
structure LibraryColor where
  library : String
  color : Color
  active : Bool
deriving DecidableEq

/-- `Logger::getTagColor` (first active match, else DEFAULT). -/
def getTagColor : List TagColor → String → Color
  | [], _ => .DEFAULT
  | c :: rest, t =>
    if c.active && decide (c.tag = t) then c.color else getTagColor rest t

/-- `Logger::getLibraryColor`. -/
def getLibraryColor : List LibraryColor → String → Color
  | [], _ => .DEFAULT
  | c :: rest, l =>
    if c.active && decide (c.library = l) then c.color else getLibraryColor rest l

/-- `MAX_TAG_COLORS` (log.hpp). -/
def MAX_TAG_COLORS : Nat := 32

/-- Modelled from the spec: log.hpp refers to `config::MAX_LIBRARY_COLORS`,
which no file under src/ defines; the spec says only that the library-color
registry is an independent fixed-capacity set.  The concrete capacity does
not influence any claim (all claims use an empty registry), so a nominal
capacity of 8 is used. -/
def MAX_LIBRARY_COLORS : Nat := 8

/-- The mutable statics of `Logger` that the claims touch.  The callback
function pointer is abstracted to its only observable aspect here: whether
one is registered (`logCallback != nullptr`). -/
structure LoggerState where
  currentLevel : Level
  hasCallback : Bool
  directOutput : Bool
  libraryTagsEnabled : Bool
  tagColors : List TagColor
  libraryColors : List LibraryColor
  filter : FilterState
deriving DecidableEq

/-- Initial values of the statics: `INFO`, no callback, direct output on,
library tags off, zeroed color registries, ALLOW_ALL filter. -/
def initLoggerState : LoggerState :=
  ⟨.INFO, false, true, false,
    List.replicate MAX_TAG_COLORS ⟨"", .DEFAULT, false⟩,
    List.replicate MAX_LIBRARY_COLORS ⟨"", .DEFAULT, false⟩,
    initFilterState⟩

/-- ANSI reset sequence `"\033[0m"`. -/
def ansiReset : String := "\x1b[0m"

/-- `std::cout << "[" << levelColor << levelStr << "\033[0m" << "] "`. -/
def renderHead (level : Level) : String :=
  "[" ++ levelToColor level ++ levelToString level ++ ansiReset ++ "] "

/-- The `if (libraryTagsEnabled && libraryName && libraryName[0] != '\0')`
block of `Logger::output`: the bracketed (possibly colored) library name,
or nothing when the gate is off or the name is null/empty. -/
def renderLibSeg (s : LoggerState) (lib : Option String) : String :=
  match lib with
  | some l =>
    if s.libraryTagsEnabled = true ∧ l ≠ "" then
      let c := getLibraryColor s.libraryColors l
      "[" ++ (if c ≠ .DEFAULT then colorToAnsi c ++ l ++ ansiReset else l) ++ "]"
    else ""
  | none => ""

/-- The regular tag segment and message:
`"[" << tag << "]: " << message << std::endl`. -/
def renderTagSeg (s : LoggerState) (tag msg : String) : String :=
  let tc := getTagColor s.tagColors tag
  "[" ++ (if tc ≠ .DEFAULT then colorToAnsi tc ++ tag ++ ansiReset else tag) ++ "]: "
    ++ msg ++ "\n"

/-- The desktop console line assembled by `Logger::output` (the
`isDesktopPlatform()` branch, the one compiled in the default
configuration): level keyword wrapped in its color, optional library
segment when library tags are enabled and the name is non-empty, tag
segment, message, `std::endl`. -/
def render (s : LoggerState) (level : Level) (tag msg : String)
    (lib : Option String) : String :=
  renderHead level ++ renderLibSeg s lib ++ renderTagSeg s tag msg

/-- Where a log line ended up: handed to the registered callback as the raw
`(level, tag, message, libraryName)` tuple, or written to the console. -/
inductive Sink where
  | callback (level : Level) (tag msg : String) (lib : Option String)
  | console (line : String)
deriving DecidableEq

/-- `Logger::output`: callback if registered, else console if
`directOutput`, else nothing. -/
def output (s : LoggerState) (level : Level) (tag msg : String)
    (lib : Option String) : Option Sink :=
  if s.hasCallback then some (.callback level tag msg lib)
  else if s.directOutput then some (.console (render s level tag msg lib))
  else none

/-- Body shared by `Logger::log` and the `*_with_library` convenience
methods: runtime level gate, tag filter, format into the fixed buffer,
dispatch. -/
def logWithLibrary (s : LoggerState) (level : Level) (tag msg : String)
    (lib : Option String) : Option Sink :=
  if level.toNat > s.currentLevel.toNat then none
  else if !checkTagFilter s.filter tag then none
  else output s level tag (truncMsg msg) lib

/-- `Logger::log` (passes `nullptr` as the library name). -/
def log (s : LoggerState) (level : Level) (tag msg : String) : Option Sink :=
  logWithLibrary s level tag msg none

/-- `Logger::log` seen as a state transformer: the C function reads the
statics but never writes them, so the state component is returned as-is. -/
def logRun (s : LoggerState) (level : Level) (tag msg : String)
    (lib : Option String) : LoggerState × Option Sink :=
  (s, logWithLibrary s level tag msg lib)

/-- `Logger::setLevel`. -/
def setLevel (s : LoggerState) (l : Level) : LoggerState :=
  { s with currentLevel := l }

/-- `Logger::getLevel`. -/
def getLevel (s : LoggerState) : Level := s.currentLevel

/-- `Logger::setCallback`: stores the callback and sets
`directOutput = (callback == nullptr)`. -/
def setCallback (s : LoggerState) (cb : Bool) : LoggerState :=
  { s with hasCallback := cb, directOutput := !cb }

/-- `Logger::enableDirectOutput`. -/
def enableDirectOutput (s : LoggerState) (b : Bool) : LoggerState :=
  { s with directOutput := b }

/-- `Logger::enableLibraryTags`. -/
def enableLibraryTags (s : LoggerState) (b : Bool) : LoggerState :=
  { s with libraryTagsEnabled := b }

/-- The public tag-filter operations, for reachability statements. -/
inductive TagOp where
  | enable (t : String)
  | disable (t : String)
  | enableAll
  | disableAll
  | clear
deriving DecidableEq

/-- Apply one public tag-filter operation. -/
def applyOp (s : FilterState) : TagOp → FilterState
  | .enable t => enableTag s t
  | .disable t => disableTag s t
  | .enableAll => enableAllTags s
  | .disableAll => disableAllTags s
  | .clear => clearTagFilters s

/-- Apply a sequence of public tag-filter operations. -/
def applyOps (s : FilterState) (ops : List TagOp) : FilterState :=
  ops.foldl applyOp s

/-- Every slot of the registry is inactive. -/
def allInactive (fs : List TagFilter) : Prop :=
  ∀ f ∈ fs, f.active = false

/-- 31 copies of `A` followed by `X`: 32 characters, beyond the stored cap. -/
def longTagX : String := ⟨List.replicate 31 'A' ++ ['X']⟩

/-- 31 copies of `A` followed by `Y`: agrees with `longTagX` on the first
31 characters but differs beyond the cutoff. -/
def longTagY : String := ⟨List.replicate 31 'A' ++ ['Y']⟩

/-- 32 copies of `a`: a single tag one character beyond the stored cap. -/
def longTagA : String := ⟨List.replicate 32 'a'⟩

/-! ### Helper lemmas shared by the claim theorems -/

theorem containsTag_replicate_inactive (n : Nat) (t x : String) :
    containsTag (List.replicate n ⟨t, false⟩) x = false := by
  induction n with
  | zero => rfl
  | succ n ih => simp [List.replicate_succ, containsTag, ih]

theorem insertFirstEmpty_replicate_succ (n : Nat) (t stored : String) :
    insertFirstEmpty (List.replicate (n + 1) ⟨t, false⟩) stored =
      ⟨stored, true⟩ :: List.replicate n ⟨t, false⟩ := by
  simp [List.replicate_succ, insertFirstEmpty]

theorem clearAll_replicate (n : Nat) (t : String) (b : Bool) :
    clearAll (List.replicate n ⟨t, b⟩) = List.replicate n ⟨t, false⟩ := by
  simp [clearAll, List.map_replicate]

theorem allInactive_clearAll (fs : List TagFilter) : allInactive (clearAll fs) := by
  intro f hf
  simp only [clearAll, List.mem_map] at hf
  obtain ⟨g, _, rfl⟩ := hf
  rfl

theorem truncTag_length (t : String) :
    (truncTag t).data.length = min TAG_STORE_CAP t.data.length := by
  simp [truncTag, List.length_take]

theorem truncTag_of_length_le (t : String) (h : t.data.length ≤ TAG_STORE_CAP) :
    truncTag t = t := by
  show String.mk (t.data.take TAG_STORE_CAP) = t
  rw [List.take_of_length_le h]

/-! ### Claim theorems -/

/-- C1.  Level gate: with the filter in ALLOW_ALL mode, a sink available
(callback registered or direct output on) and threshold `T`, a call at
level `L` is emitted iff `L ≤ T` numerically; the call never mutates the
logger state.  Concretely, with threshold WARN, an ERROR call and a WARN
call each emit and an INFO call emits nothing. -/
theorem level_gate_iff (s : LoggerState) (L T : Level) (tag msg : String)
    (lib : Option String)
    (hmode : s.filter.mode = .ALLOW_ALL)
    (hT : s.currentLevel = T)
    (hsink : s.hasCallback = true ∨ s.directOutput = true) :
    ((logRun s L tag msg lib).2.isSome ↔ L.toNat ≤ T.toNat) ∧
    (logRun s L tag msg lib).1 = s ∧
    (log (setLevel initLoggerState .WARN) .ERROR "T" "e").isSome = true ∧
    (log (setLevel initLoggerState .WARN) .WARN "T" "w").isSome = true ∧
    log (setLevel initLoggerState .WARN) .INFO "T" "i" = none := by
  refine ⟨?_, rfl, by decide, by decide, by decide⟩
  subst hT
  unfold logRun logWithLibrary
  by_cases hgt : L.toNat > s.currentLevel.toNat
  · simp only [hgt, if_true]
    simp only [Option.isSome_none, Bool.false_eq_true, false_iff]
    omega
  · have hle : L.toNat ≤ s.currentLevel.toNat := by omega
    have hout : (output s L tag (truncMsg msg) lib).isSome = true := by
      unfold output
      rcases hsink with hc | hd
      · simp [hc]
      · by_cases hc2 : s.hasCallback <;> simp [hc2, hd]
    simp [hgt, checkTagFilter, hmode, hout, hle]

theorem level_gate_iff_witness :
    ((logRun initLoggerState .ERROR "T" "m" none).2.isSome ↔
      Level.ERROR.toNat ≤ Level.INFO.toNat) ∧
    (logRun initLoggerState .ERROR "T" "m" none).1 = initLoggerState ∧
    (log (setLevel initLoggerState .WARN) .ERROR "T" "e").isSome = true ∧
    (log (setLevel initLoggerState .WARN) .WARN "T" "w").isSome = true ∧
    log (setLevel initLoggerState .WARN) .INFO "T" "i" = none :=
  level_gate_iff initLoggerState .ERROR .INFO "T" "m" none rfl rfl (Or.inr rfl)

/-- C2.  Filter mode transition: from the initial ALLOW_ALL state,
`enableTag "A"` switches to WHITELIST, so `isTagEnabled B` is false for
every `B ≠ "A"`; from a fresh ALLOW_ALL state, `disableTag "A"` switches
to BLACKLIST, so `isTagEnabled B` is true for every `B ≠ "A"`. -/
theorem filter_mode_transition (B : String) (hB : B ≠ "A") :
    isTagEnabled (enableTag initFilterState "A") B = false ∧
    isTagEnabled (disableTag initFilterState "A") B = true := by
  have h1 : enableTag initFilterState "A" =
      ⟨.WHITELIST, ⟨"A", true⟩ :: List.replicate 15 ⟨"", false⟩⟩ := by decide
  have h2 : disableTag initFilterState "A" =
      ⟨.BLACKLIST, ⟨"A", true⟩ :: List.replicate 15 ⟨"", false⟩⟩ := by decide
  have hd : decide ("A" = B) = false := decide_eq_false fun h => hB h.symm
  constructor
  · rw [h1]
    simp [isTagEnabled, checkTagFilter, containsTag, hd,
      containsTag_replicate_inactive]
  · rw [h2]
    simp [isTagEnabled, checkTagFilter, containsTag, hd,
      containsTag_replicate_inactive]

theorem filter_mode_transition_witness :
    isTagEnabled (enableTag initFilterState "A") "B" = false ∧
    isTagEnabled (disableTag initFilterState "A") "B" = true :=
  filter_mode_transition "B" (by decide)

/-- C10.  A call at level OFF (numeric value 0) always passes the runtime
level gate — `level > currentLevel` cannot hold for OFF — so with the
filter in ALLOW_ALL mode the call reaches `output` even when the threshold
is OFF; the rendered line uses the fallback level string `"?????"`. -/
theorem off_level_passes_gate (s : LoggerState) (tag msg : String)
    (lib : Option String) (hmode : s.filter.mode = .ALLOW_ALL) :
    logWithLibrary s .OFF tag msg lib = output s .OFF tag (truncMsg msg) lib ∧
    levelToString .OFF = "?????" ∧
    log (setLevel initLoggerState .OFF) .OFF "T" "m" =
      some (.console "[\x1b[0m?????\x1b[0m] [T]: m\n") := by
  refine ⟨?_, rfl, by decide⟩
  unfold logWithLibrary
  have h0 : ¬ (Level.OFF.toNat > s.currentLevel.toNat) := by
    simp [Level.toNat]
  simp [h0, checkTagFilter, hmode]

theorem insertFirstEmpty_sixteen (stored : String) :
    insertFirstEmpty (List.replicate 16 ⟨"", false⟩) stored =
      ⟨stored, true⟩ :: List.replicate 15 ⟨"", false⟩ := by
  show insertFirstEmpty (⟨"", false⟩ :: List.replicate 15 ⟨"", false⟩) stored = _
  simp [insertFirstEmpty]

/-- C3.  Whitelist/blacklist symmetry for tags within the stored length
cap: after `disableAllTags; enableTag X` only `X` passes; after
`enableAllTags; disableTag X` every tag except `X` passes. -/
theorem whitelist_blacklist_symmetry (X Y : String)
    (hlen : X.data.length ≤ TAG_STORE_CAP) (hne : X ≠ Y) :
    isTagEnabled (enableTag (disableAllTags initFilterState) X) X = true ∧
    isTagEnabled (enableTag (disableAllTags initFilterState) X) Y = false ∧
    isTagEnabled (disableTag (enableAllTags initFilterState) X) X = false ∧
    isTagEnabled (disableTag (enableAllTags initFilterState) X) Y = true := by
  have htr : truncTag X = X := truncTag_of_length_le X hlen
  have hdXX : decide (X = X) = true := by simp
  have hdXY : decide (X = Y) = false := decide_eq_false hne
  have hw : enableTag (disableAllTags initFilterState) X =
      ⟨.WHITELIST, ⟨X, true⟩ :: List.replicate 15 ⟨"", false⟩⟩ := by
    have hbase : disableAllTags initFilterState =
        ⟨.WHITELIST, List.replicate 16 ⟨"", false⟩⟩ := by decide
    rw [hbase]
    simp [enableTag, containsTag, insertFirstEmpty, htr]
  have hb : disableTag (enableAllTags initFilterState) X =
      ⟨.BLACKLIST, ⟨X, true⟩ :: List.replicate 15 ⟨"", false⟩⟩ := by
    have hbase : enableAllTags initFilterState =
        ⟨.ALLOW_ALL, List.replicate 16 ⟨"", false⟩⟩ := by decide
    rw [hbase]
    simp [disableTag, containsTag, insertFirstEmpty, htr]
  rw [hw, hb]
  refine ⟨?_, ?_, ?_, ?_⟩ <;>
    simp [isTagEnabled, checkTagFilter, containsTag, hdXX, hdXY,
      containsTag_replicate_inactive]

theorem whitelist_blacklist_symmetry_witness :
    isTagEnabled (enableTag (disableAllTags initFilterState) "DB") "DB" = true ∧
    isTagEnabled (enableTag (disableAllTags initFilterState) "DB") "NET" = false ∧
    isTagEnabled (disableTag (enableAllTags initFilterState) "DB") "DB" = false ∧
    isTagEnabled (disableTag (enableAllTags initFilterState) "DB") "NET" = true :=
  whitelist_blacklist_symmetry "DB" "NET" (by decide) (by decide)

theorem insertFirstEmpty_allActive (fs : List TagFilter) (x : String)
    (h : ∀ f ∈ fs, f.active = true) : insertFirstEmpty fs x = fs := by
  induction fs with
  | nil => rfl
  | cons f rest ih =>
    have hf : f.active = true := h f (List.mem_cons_self f rest)
    simp only [insertFirstEmpty, hf, if_true, List.cons.injEq, true_and]
    exact ih fun g hg => h g (List.mem_cons_of_mem f hg)

/-- C8.  Capacity saturation is silent and non-destructive: with every
slot of the registry active (the array is full) and `X` absent,
`enableTag X` in WHITELIST mode and `disableTag X` in BLACKLIST mode both
return with the mode and every entry unchanged (the model has no error
channel, matching the `void` return of the C functions). -/
theorem capacity_saturation (fs : List TagFilter) (X : String)
    (hlen : fs.length = MAX_TAG_FILTERS)
    (hfull : ∀ f ∈ fs, f.active = true)
    (habs : containsTag fs X = false) :
    enableTag ⟨.WHITELIST, fs⟩ X = ⟨.WHITELIST, fs⟩ ∧
    disableTag ⟨.BLACKLIST, fs⟩ X = ⟨.BLACKLIST, fs⟩ := by
  constructor
  · simp [enableTag, habs, insertFirstEmpty_allActive fs (truncTag X) hfull]
  · simp [disableTag, habs, insertFirstEmpty_allActive fs (truncTag X) hfull]

theorem capacity_saturation_witness :
    enableTag ⟨.WHITELIST, List.replicate 16 ⟨"T", true⟩⟩ "Z" =
      ⟨.WHITELIST, List.replicate 16 ⟨"T", true⟩⟩ ∧
    disableTag ⟨.BLACKLIST, List.replicate 16 ⟨"T", true⟩⟩ "Z" =
      ⟨.BLACKLIST, List.replicate 16 ⟨"T", true⟩⟩ :=
  capacity_saturation (List.replicate 16 ⟨"T", true⟩) "Z" (by decide)
    (by decide) (by decide)

theorem enableTag_mode (s : FilterState) (t : String) :
    (enableTag s t).mode = if s.mode = .ALLOW_ALL then .WHITELIST else s.mode := by
  cases hm : s.mode <;> simp [enableTag, hm] <;> split <;> rfl

theorem disableTag_mode (s : FilterState) (t : String) :
    (disableTag s t).mode = if s.mode = .ALLOW_ALL then .BLACKLIST else s.mode := by
  cases hm : s.mode <;> simp [disableTag, hm] <;> split <;> rfl

/-- The C9 invariant: whenever the mode is ALLOW_ALL, no slot is active. -/
def FilterInv (s : FilterState) : Prop :=
  s.mode = .ALLOW_ALL → allInactive s.filters

theorem applyOp_preserves_inv (s : FilterState) (op : TagOp)
    (h : FilterInv s) : FilterInv (applyOp s op) := by
  cases op with
  | enable t =>
    intro hmode
    exfalso
    have hm : (enableTag s t).mode =
        if s.mode = .ALLOW_ALL then .WHITELIST else s.mode := enableTag_mode s t
    have hmode' : (enableTag s t).mode = .ALLOW_ALL := hmode
    rw [hmode'] at hm
    by_cases hA : s.mode = .ALLOW_ALL
    · rw [if_pos hA] at hm
      exact (by decide : TagFilterMode.ALLOW_ALL ≠ .WHITELIST) hm
    · rw [if_neg hA] at hm
      exact hA hm.symm
  | disable t =>
    intro hmode
    exfalso
    have hm : (disableTag s t).mode =
        if s.mode = .ALLOW_ALL then .BLACKLIST else s.mode := disableTag_mode s t
    have hmode' : (disableTag s t).mode = .ALLOW_ALL := hmode
    rw [hmode'] at hm
    by_cases hA : s.mode = .ALLOW_ALL
    · rw [if_pos hA] at hm
      exact (by decide : TagFilterMode.ALLOW_ALL ≠ .BLACKLIST) hm
    · rw [if_neg hA] at hm
      exact hA hm.symm
  | enableAll => exact fun _ => allInactive_clearAll _
  | disableAll =>
    intro hmode
    exact absurd hmode (by simp [applyOp, disableAllTags])
  | clear => exact fun _ => allInactive_clearAll _

theorem applyOps_preserves_inv (ops : List TagOp) (s : FilterState)
    (h : FilterInv s) : FilterInv (applyOps s ops) := by
  induction ops generalizing s with
  | nil => exact h
  | cons op rest ih => exact ih (applyOp s op) (applyOp_preserves_inv s op h)

/-- C9.  In every state reachable from the initial state by the public
tag-filter operations, mode ALLOW_ALL implies the registry has no active
entries. -/
theorem allow_all_empty_invariant (ops : List TagOp)
    (hmode : (applyOps initFilterState ops).mode = .ALLOW_ALL) :
    allInactive (applyOps initFilterState ops).filters := by
  have hinit : FilterInv initFilterState := fun _ f hf => by
    rw [List.eq_of_mem_replicate hf]
  exact applyOps_preserves_inv ops initFilterState hinit hmode

theorem allow_all_empty_invariant_witness :
    allInactive (applyOps initFilterState
      [TagOp.disable "A", TagOp.enableAll]).filters :=
  allow_all_empty_invariant [TagOp.disable "A", TagOp.enableAll] (by decide)

theorem off_level_passes_gate_witness :
    logWithLibrary initLoggerState .OFF "T" "m" none =
      output initLoggerState .OFF "T" (truncMsg "m") none ∧
    levelToString .OFF = "?????" ∧
    log (setLevel initLoggerState .OFF) .OFF "T" "m" =
      some (.console "[\x1b[0m?????\x1b[0m] [T]: m\n") :=
  off_level_passes_gate initLoggerState "T" "m" none rfl

/-- C4.  Callback exclusivity: while a callback is registered, a call
either gates out or delivers the raw tuple to the callback — never the
console, whatever `directOutput` holds; after `setCallback(nullptr)` the
callback is gone and `directOutput` is forced back on, so an emitted call
goes to the console; and no single call's dispatch is both a console write
and a callback delivery. -/
theorem callback_exclusivity (s : LoggerState) (L : Level) (tag msg : String)
    (lib : Option String) (hc : s.hasCallback = true) :
    (logWithLibrary s L tag msg lib = none ∨
      logWithLibrary s L tag msg lib =
        some (.callback L tag (truncMsg msg) lib)) ∧
    ((setCallback s false).hasCallback = false ∧
      (setCallback s false).directOutput = true) ∧
    (logWithLibrary (setCallback s false) L tag msg lib = none ∨
      logWithLibrary (setCallback s false) L tag msg lib =
        some (.console (render (setCallback s false) L tag (truncMsg msg) lib))) ∧
    (∀ line l2 t2 m2 lb2,
      logWithLibrary s L tag msg lib = some (.console line) →
      logWithLibrary s L tag msg lib ≠ some (.callback l2 t2 m2 lb2)) := by
  refine ⟨?_, ⟨rfl, rfl⟩, ?_, ?_⟩
  · unfold logWithLibrary
    by_cases h1 : L.toNat > s.currentLevel.toNat
    · left; simp [h1]
    · by_cases h2 : checkTagFilter s.filter tag
      · right; simp [h1, h2, output, hc]
      · left; simp [h1, h2]
  · unfold logWithLibrary
    by_cases h1 : L.toNat > s.currentLevel.toNat
    · left; simp [setCallback, h1]
    · by_cases h2 : checkTagFilter s.filter tag
      · right; simp [setCallback, h1, h2, output]
      · left; simp [setCallback, h1, h2]
  · intro line l2 t2 m2 lb2 hcons heq
    rw [hcons] at heq
    simp at heq

theorem callback_exclusivity_witness :
    (logWithLibrary (setCallback initLoggerState true) .ERROR "T" "m" none = none ∨
      logWithLibrary (setCallback initLoggerState true) .ERROR "T" "m" none =
        some (.callback .ERROR "T" (truncMsg "m") none)) ∧
    ((setCallback (setCallback initLoggerState true) false).hasCallback = false ∧
      (setCallback (setCallback initLoggerState true) false).directOutput = true) ∧
    (logWithLibrary (setCallback (setCallback initLoggerState true) false)
        .ERROR "T" "m" none = none ∨
      logWithLibrary (setCallback (setCallback initLoggerState true) false)
          .ERROR "T" "m" none =
        some (.console (render (setCallback (setCallback initLoggerState true) false)
          .ERROR "T" (truncMsg "m") none))) ∧
    (∀ line l2 t2 m2 lb2,
      logWithLibrary (setCallback initLoggerState true) .ERROR "T" "m" none =
        some (.console line) →
      logWithLibrary (setCallback initLoggerState true) .ERROR "T" "m" none ≠
        some (.callback l2 t2 m2 lb2)) :=
  callback_exclusivity (setCallback initLoggerState true) .ERROR "T" "m" none rfl

/-- C5 counterexample: with library tags disabled, a registered callback
still receives the library identity `"MyLib"` as the fourth component of
the delivered tuple — `Logger::output` hands the raw tuple over without
consulting `libraryTagsEnabled`, so the claim that the library segment is
absent from the callback-delivered output is false. -/
theorem library_gate_cex :
    (setCallback initLoggerState true).libraryTagsEnabled = false ∧
    logWithLibrary (setCallback initLoggerState true) .ERROR "T" "m"
        (some "MyLib") =
      some (.callback .ERROR "T" "m" (some "MyLib")) := by decide

/-- C5 as amended: the CONSOLE rendering contains the bracketed library
segment iff library tags are enabled and the name is non-empty (with the
gate off the rendered line is identical to the no-library rendering);
the CALLBACK path always delivers the raw library name as a separate
tuple component, independent of the gate. -/
theorem library_gate (s : LoggerState) (L : Level) (tag msg l : String) :
    (s.libraryTagsEnabled = false →
      render s L tag msg (some l) = render s L tag msg none) ∧
    (s.libraryTagsEnabled = true → l ≠ "" →
      ∃ pre post w,
        render s L tag msg (some l) = pre ++ ("[" ++ w ++ "]") ++ post ∧
        render s L tag msg none = pre ++ post ∧
        (w = l ∨ w = colorToAnsi (getLibraryColor s.libraryColors l) ++ l
          ++ ansiReset)) ∧
    (s.hasCallback = true →
      logWithLibrary s L tag msg (some l) = none ∨
      logWithLibrary s L tag msg (some l) =
        some (.callback L tag (truncMsg msg) (some l))) := by
  refine ⟨?_, ?_, ?_⟩
  · intro h
    simp [render, renderLibSeg, h]
  · intro h1 h2
    refine ⟨renderHead L, renderTagSeg s tag msg,
      if getLibraryColor s.libraryColors l ≠ Color.DEFAULT then
        colorToAnsi (getLibraryColor s.libraryColors l) ++ l ++ ansiReset
      else l, ?_, ?_, ?_⟩
    · simp [render, renderLibSeg, h1, h2]
    · simp [render, renderLibSeg]
    · by_cases hcol : getLibraryColor s.libraryColors l = Color.DEFAULT
      · left; simp [hcol]
      · right; simp [hcol]
  · intro hc
    unfold logWithLibrary
    by_cases h1 : L.toNat > s.currentLevel.toNat
    · left; simp [h1]
    · by_cases h2 : checkTagFilter s.filter tag
      · right; simp [h1, h2, output, hc]
      · left; simp [h1, h2]

theorem library_gate_witness :
    render (enableLibraryTags initLoggerState false) .INFO "T" "m"
        (some "MyLib") =
      render (enableLibraryTags initLoggerState false) .INFO "T" "m" none ∧
    (∃ pre post w,
      render (enableLibraryTags initLoggerState true) .INFO "T" "m"
          (some "MyLib") = pre ++ ("[" ++ w ++ "]") ++ post ∧
      render (enableLibraryTags initLoggerState true) .INFO "T" "m" none =
        pre ++ post ∧
      (w = "MyLib" ∨ w = colorToAnsi (getLibraryColor
        (enableLibraryTags initLoggerState true).libraryColors "MyLib")
        ++ "MyLib" ++ ansiReset)) ∧
    (logWithLibrary (setCallback initLoggerState true) .ERROR "T" "m"
        (some "MyLib") = none ∨
      logWithLibrary (setCallback initLoggerState true) .ERROR "T" "m"
          (some "MyLib") =
        some (.callback .ERROR "T" (truncMsg "m") (some "MyLib"))) :=
  ⟨(library_gate (enableLibraryTags initLoggerState false) .INFO "T" "m"
      "MyLib").1 rfl,
   (library_gate (enableLibraryTags initLoggerState true) .INFO "T" "m"
      "MyLib").2.1 rfl (by decide),
   (library_gate (setCallback initLoggerState true) .ERROR "T" "m"
      "MyLib").2.2 rfl⟩

/-- C6 counterexample: two distinct 32-character tags agreeing on their
first 31 characters.  After `disableTag` on the first from ALLOW_ALL, the
claim predicts `isTagEnabled` on the second returns false; the code
returns true, because `findTagFilter` compares the stored TRUNCATED tag
with the UNTRUNCATED query via `strcmp`, which never matches. -/
theorem truncation_before_comparison_cex :
    longTagX ≠ longTagY ∧
    truncTag longTagX = truncTag longTagY ∧
    TAG_STORE_CAP < longTagX.data.length ∧
    isTagEnabled (disableTag initFilterState longTagX) longTagY = true := by
  decide

/-- C6 as amended: tags beyond the 31-character cap are truncated on
STORAGE only; lookup compares the full query against the stored value.
Two long tags sharing their 31-character prefix therefore produce the same
stored entry (`disableTag` from ALLOW_ALL yields identical states), but
neither the original tag nor its collision partner matches that entry on
lookup, so both remain enabled in the resulting BLACKLIST state. -/
theorem truncation_storage_only (T1 T2 : String)
    (h1 : TAG_STORE_CAP < T1.data.length)
    (h2 : TAG_STORE_CAP < T2.data.length)
    (hpre : truncTag T1 = truncTag T2) :
    disableTag initFilterState T1 = disableTag initFilterState T2 ∧
    isTagEnabled (disableTag initFilterState T1) T1 = true ∧
    isTagEnabled (disableTag initFilterState T1) T2 = true := by
  have hne1 : truncTag T1 ≠ T1 := by
    intro h
    have hl := congrArg (fun s => s.data.length) h
    simp only [truncTag_length] at hl
    omega
  have hne2 : truncTag T1 ≠ T2 := by
    intro h
    rw [hpre] at h
    have hl := congrArg (fun s => s.data.length) h
    simp only [truncTag_length] at hl
    omega
  have hd1 : disableTag initFilterState T1 =
      ⟨.BLACKLIST, ⟨truncTag T1, true⟩ :: List.replicate 15 ⟨"", false⟩⟩ := by
    simp [disableTag, initFilterState, initFilters, MAX_TAG_FILTERS,
      containsTag, insertFirstEmpty]
  have hd2 : disableTag initFilterState T2 =
      ⟨.BLACKLIST, ⟨truncTag T2, true⟩ :: List.replicate 15 ⟨"", false⟩⟩ := by
    simp [disableTag, initFilterState, initFilters, MAX_TAG_FILTERS,
      containsTag, insertFirstEmpty]
  refine ⟨?_, ?_, ?_⟩
  · rw [hd1, hd2, hpre]
  · rw [hd1]
    simp [isTagEnabled, checkTagFilter, containsTag, decide_eq_false hne1]
  · rw [hd1]
    simp [isTagEnabled, checkTagFilter, containsTag, decide_eq_false hne2]

theorem truncation_storage_only_witness :
    disableTag initFilterState longTagX = disableTag initFilterState longTagY ∧
    isTagEnabled (disableTag initFilterState longTagX) longTagX = true ∧
    isTagEnabled (disableTag initFilterState longTagX) longTagY = true :=
  truncation_storage_only longTagX longTagY (by decide) (by decide) (by decide)

/-- C7 counterexample: for a 32-character tag, the second `enableTag` in
WHITELIST mode does NOT leave the registry unchanged — the duplicate check
compares the untruncated tag against the stored truncation, misses, and a
second (duplicate) active entry is appended, consuming another slot. -/
theorem enable_idempotent_cex :
    enableTag (enableTag (disableAllTags initFilterState) longTagA) longTagA ≠
      enableTag (disableAllTags initFilterState) longTagA ∧
    activeCount (enableTag (enableTag (disableAllTags initFilterState) longTagA)
        longTagA).filters = 2 ∧
    activeCount (enableTag (disableAllTags initFilterState) longTagA).filters
      = 1 := by
  decide

theorem insert_self_found (fs : List TagFilter) (x : String) :
    insertFirstEmpty fs x = fs ∨
    containsTag (insertFirstEmpty fs x) x = true := by
  induction fs with
  | nil => left; rfl
  | cons f rest ih =>
    by_cases hf : f.active
    · rcases ih with h | h
      · left; simp [insertFirstEmpty, hf, h]
      · right; simp [containsTag, insertFirstEmpty, hf, h]
    · right; simp [insertFirstEmpty, hf, containsTag]

/-- C7 as amended: for every tag within the 31-character stored cap,
`enableTag` twice in WHITELIST mode leaves the registry in exactly the
state a single call produces, from any WHITELIST-mode state; only tags
beyond the cap (see the counterexample) break idempotence. -/
theorem enable_idempotent_short (s : FilterState) (X : String)
    (hmode : s.mode = .WHITELIST) (hlen : X.data.length ≤ TAG_STORE_CAP) :
    enableTag (enableTag s X) X = enableTag s X := by
  have htr : truncTag X = X := truncTag_of_length_le X hlen
  by_cases hc : containsTag s.filters X
  · have h1 : enableTag s X = ⟨.WHITELIST, s.filters⟩ := by
      simp [enableTag, hmode, hc]
    rw [h1]
    simp [enableTag, hc]
  · have h1 : enableTag s X = ⟨.WHITELIST, insertFirstEmpty s.filters X⟩ := by
      simp [enableTag, hmode, hc, htr]
    rw [h1]
    rcases insert_self_found s.filters X with h | h
    · rw [h]
      simp [enableTag, hc, htr, h]
    · simp [enableTag, h, htr]

theorem enable_idempotent_short_witness :
    enableTag (enableTag (disableAllTags initFilterState) "DB") "DB" =
      enableTag (disableAllTags initFilterState) "DB" :=
  enable_idempotent_short (disableAllTags initFilterState) "DB" rfl (by decide)

end Clog
